import Mathlib

/-!
Shallow embedding of `crates/types/src/services/executor.rs` from the
`fuel-core` repository: the result and failure contract of the executor service
(the `ExecutionTypes` mode wrapper, the `ExecutionResult` outcome types, and
the `Error` / `TransactionValidityError` taxonomy with its conversions).

External dependency types (`Bytes32`, `UtxoId`, `Nonce`, `ContractId`,
`CheckError`, `ValidityError`, `ProgramState`, `InterpreterError`,
`Backtrace`, `anyhow::Error`) come from the `fuel-types`, `fuel-tx` and
`fuel-vm` crates; they are modelled opaquely below, keeping only the
structure the executor types depend on (the `Validity` constructor of
`CheckError`, and a hex rendering for identifier types).
-/

/-- External identifier type from `fuel-types` (`Bytes32`), modelled as the
numeric value of its 32 bytes. -/
abbrev Bytes32 := Nat

/-- External alias from `fuel-tx`: a transaction id is a `Bytes32`. -/
abbrev TxId := Bytes32

/-- External identifier from the blockchain primitives: a block id. -/
abbrev BlockId := Bytes32

/-- External identifier type from `fuel-types` (`Nonce`), modelled as the
numeric value of its bytes. -/
abbrev Nonce := Nat

/-- External identifier type from `fuel-tx` (`UtxoId`: a transaction id plus
an output index), modelled as the numeric value of its rendering. -/
abbrev UtxoId := Nat

/-- External identifier type from `fuel-types` (`ContractId`), modelled as
the numeric value of its 32 bytes. -/
abbrev ContractId := Nat

/-- External VM type from `fuel-vm` (`ProgramState`), modelled opaquely. -/
structure ProgramState where
  code : Nat
deriving DecidableEq

/-- External opaque error carrier (`anyhow::Error`), modelled by its
displayed message. -/
abbrev AnyhowError := String

/-- External boxed error object (`Box<dyn StdError + Send + Sync>`),
modelled by its displayed message. -/
abbrev BoxedStdError := String

/-- External VM error from `fuel-vm` (`InterpreterError<anyhow::Error>`),
modelled by its debug rendering. -/
abbrev InterpreterError := String

/-- External VM type from `fuel-vm` (`Backtrace`), modelled opaquely. -/
structure Backtrace where
  description : String
deriving DecidableEq

/-- External error from `fuel-tx` (`ValidityError`), modelled opaquely by a
numeric discriminant. -/
structure ValidityError where
  code : Nat
deriving DecidableEq

/-- External error from `fuel-vm`:`checked_transaction::CheckError`. Its
`Validity` variant wraps a `ValidityError`; its other variants are modelled
by the representative `PredicateVerificationFailed`. -/
inductive CheckError where
  | Validity : ValidityError → CheckError
  | PredicateVerificationFailed : String → CheckError
deriving DecidableEq

/-- External `From<ValidityError> for CheckError` conversion of `fuel-vm`:
wraps the validity error in `CheckError::Validity`. -/
def CheckError.from_validity (e : ValidityError) : CheckError :=
  CheckError.Validity e

/-- The character U+0027 as a one-character string, used by the display
renderings below. -/
def aposChar : Char := Char.ofNat 39

/-- The one-character string holding U+0027. -/
def apos : String := String.singleton aposChar

/-- Hex rendering of an identifier, modelling the Rust alternate lower-hex
format `{:#x}` of the fuel identifier types: a `0x` prefix followed by the
hex digits of the value. -/
def hexStr (n : Nat) : String :=
  "0x" ++ (Nat.toDigits 16 n).asString

/-- Debug rendering (`{:?}`/`{:#?}`) of the external `CheckError`, modelled
from its derived `Debug` output shape. -/
def CheckError.debugStr : CheckError → String
  | CheckError.Validity e => "Validity(ValidityError(" ++ toString e.code ++ "))"
  | CheckError.PredicateVerificationFailed s =>
      "PredicateVerificationFailed(" ++ s ++ ")"

/-- `ExecutionTypes<P, V>`: execution wrapper where the types depend on the
type of execution (`DryRun`/`Production` produce a `P`, `Validation` checks
a `V`). -/
inductive ExecutionTypes (P V : Type) where
  | DryRun : P → ExecutionTypes P V
  | Production : P → ExecutionTypes P V
  | Validation : V → ExecutionTypes P V
deriving DecidableEq

/-- `ExecutionType<T>`: execution wrapper with only a single type. -/
abbrev ExecutionType (T : Type) := ExecutionTypes T T

/-- `ExecutionKind`: the kind of execution. -/
inductive ExecutionKind where
  | DryRun : ExecutionKind
  | Production : ExecutionKind
  | Validation : ExecutionKind
deriving DecidableEq

/-- `ExecutionTypes::map_p`: map the production type if producing. -/
def ExecutionTypes.map_p {P V Q : Type} (self : ExecutionTypes P V)
    (f : P → Q) : ExecutionTypes Q V :=
  match self with
  | ExecutionTypes.DryRun p => ExecutionTypes.DryRun (f p)
  | ExecutionTypes.Production p => ExecutionTypes.Production (f p)
  | ExecutionTypes.Validation v => ExecutionTypes.Validation v

/-- `ExecutionTypes::map_v`: map the validation type if validating. -/
def ExecutionTypes.map_v {P V W : Type} (self : ExecutionTypes P V)
    (f : V → W) : ExecutionTypes P W :=
  match self with
  | ExecutionTypes.DryRun p => ExecutionTypes.DryRun p
  | ExecutionTypes.Production p => ExecutionTypes.Production p
  | ExecutionTypes.Validation v => ExecutionTypes.Validation (f v)

/-- `ExecutionTypes::to_kind`: get the kind of execution. -/
def ExecutionTypes.to_kind {P V : Type} (self : ExecutionTypes P V) :
    ExecutionKind :=
  match self with
  | ExecutionTypes.DryRun _ => ExecutionKind.DryRun
  | ExecutionTypes.Production _ => ExecutionKind.Production
  | ExecutionTypes.Validation _ => ExecutionKind.Validation

/-- `ExecutionType::map`: map the wrapped type. -/
def ExecutionType.map {T U : Type} (self : ExecutionType T) (f : T → U) :
    ExecutionType U :=
  match self with
  | ExecutionTypes.DryRun p => ExecutionTypes.DryRun (f p)
  | ExecutionTypes.Production p => ExecutionTypes.Production (f p)
  | ExecutionTypes.Validation v => ExecutionTypes.Validation (f v)

/-- `ExecutionType::filter_map`: filter and map the inner type. -/
def ExecutionType.filter_map {T U : Type} (self : ExecutionType T)
    (f : T → Option U) : Option (ExecutionType U) :=
  match self with
  | ExecutionTypes.DryRun p => (f p).map ExecutionTypes.DryRun
  | ExecutionTypes.Production p => (f p).map ExecutionTypes.Production
  | ExecutionTypes.Validation v => (f v).map ExecutionTypes.Validation

/-- `ExecutionType::into_inner`: get the inner type. -/
def ExecutionType.into_inner {T : Type} (self : ExecutionType T) : T :=
  match self with
  | ExecutionTypes.DryRun t => t
  | ExecutionTypes.Production t => t
  | ExecutionTypes.Validation t => t

/-- `ExecutionType::split`: split into the execution kind and the inner
type. -/
def ExecutionType.split {T : Type} (self : ExecutionType T) :
    ExecutionKind × T :=
  let kind := ExecutionTypes.to_kind self
  (kind, ExecutionType.into_inner self)

/-- `ExecutionKind::wrap`: wrap a type in this execution kind. -/
def ExecutionKind.wrap {T : Type} (self : ExecutionKind) (t : T) :
    ExecutionType T :=
  match self with
  | ExecutionKind.DryRun => ExecutionTypes.DryRun t
  | ExecutionKind.Production => ExecutionTypes.Production t
  | ExecutionKind.Validation => ExecutionTypes.Validation t

/-- Modelled from the spec: the `Transaction` type of `fuel-tx` is not under
the sources provided; a transaction is modelled as its 32-byte id plus an
opaque payload ("a complete block being checked", "the finalized block
containing only transactions that were accepted"). -/
structure Transaction where
  id : TxId
  payload : Nat
deriving DecidableEq

/-- Modelled from the spec: `Block` and its `id()` accessor live in
`crates/types/src/blockchain/block.rs`, which is not under the sources
provided. The spec describes a full block as holding its transactions and
exposing "the hash of the full `FuelBlock`"; the hash is modelled as a
stored `BlockId`. -/
structure Block where
  blockId : BlockId
  transactions : List Transaction
deriving DecidableEq

/-- Modelled from the spec: `Block::id` returns the hash of the block. -/
def Block.id (self : Block) : BlockId := self.blockId

/-- `ExecutionTypes::<P, Block>::id`: get the hash of the full block if
validating. -/
def ExecutionTypes.id {P : Type} (self : ExecutionTypes P Block) :
    Option BlockId :=
  match self with
  | ExecutionTypes.DryRun _ => none
  | ExecutionTypes.Production _ => none
  | ExecutionTypes.Validation v => some (Block.id v)

/-- `TransactionExecutionResult`: the result of transaction execution. -/
inductive TransactionExecutionResult where
  | Success : Option ProgramState → TransactionExecutionResult
  | Failed : Option ProgramState → String → TransactionExecutionResult
deriving DecidableEq

/-- `TransactionExecutionStatus`: the status of a transaction after it is
executed. -/
structure TransactionExecutionStatus where
  id : Bytes32
  result : TransactionExecutionResult
deriving DecidableEq

/-- `TransactionValidityError`: why the inputs of a transaction are invalid
against current chain state. -/
inductive TransactionValidityError where
  | CoinAlreadySpent : UtxoId → TransactionValidityError
  | CoinHasNotMatured : UtxoId → TransactionValidityError
  | CoinDoesNotExist : UtxoId → TransactionValidityError
  | MessageAlreadySpent : Nonce → TransactionValidityError
  | MessageSpendTooEarly : Nonce → TransactionValidityError
  | MessageDoesNotExist : Nonce → TransactionValidityError
  | MessageSenderMismatch : Nonce → TransactionValidityError
  | MessageRecipientMismatch : Nonce → TransactionValidityError
  | MessageAmountMismatch : Nonce → TransactionValidityError
  | MessageNonceMismatch : Nonce → TransactionValidityError
  | MessageDataMismatch : Nonce → TransactionValidityError
  | InvalidContractInputIndex : UtxoId → TransactionValidityError
  | PredicateExecutionDisabled : TxId → TransactionValidityError
  | InvalidPredicate : TxId → TransactionValidityError
  | Validation : CheckError → TransactionValidityError
deriving DecidableEq

/-- Alias for the external VM backtrace type, used in the `Error` inductive
where the constructor named `Backtrace` shadows the type name. -/
abbrev VmBacktrace := Backtrace

/-- `Error`: the executor-level error taxonomy. -/
inductive Error where
  | TransactionIdCollision : Bytes32 → Error
  | TooManyTransactions : Error
  | OutputAlreadyExists : Error
  | FeeOverflow : Error
  | MintMissing : Error
  | MintFoundSecondEntry : Error
  | MintHasUnexpectedIndex : Error
  | MintIsNotLastTransaction : Error
  | MintMismatch : Error
  | CoinbaseCannotIncreaseBalance : AnyhowError → Error
  | CoinbaseAmountMismatch : Error
  | TransactionValidity : TransactionValidityError → Error
  | StorageError : AnyhowError → Error
  | RelayerError : BoxedStdError → Error
  | VmExecution : InterpreterError → Bytes32 → Error
  | InvalidTransaction : CheckError → Error
  | Backtrace : VmBacktrace → Error
  | InvalidTransactionOutcome : Bytes32 → Error
  | InvalidFeeAmount : Error
  | InvalidBlockId : Error
  | ContractUtxoMissing : ContractId → Error
  | MessageAlreadySpent : Nonce → Error
  | InputTypeMismatch : String → Error
deriving DecidableEq

/-- `ExecutionResult`: the result of transactions execution. -/
structure ExecutionResult where
  block : Block
  skipped_transactions : List (TxId × Error)
  tx_status : List TransactionExecutionStatus

/-- The `#[from]` conversion generated by `derive_more::From` on
`Error::TransactionValidity`: `Error::from(v)` wraps `v` in the
`TransactionValidity` variant. -/
def Error.from_transaction_validity (v : TransactionValidityError) : Error :=
  Error.TransactionValidity v

/-- `From<Backtrace> for Error`: boxes the backtrace into
`Error::Backtrace`. -/
def Error.from_backtrace (e : VmBacktrace) : Error :=
  Error.Backtrace e

/-- `From<CheckError> for Error`: wraps the check error in
`Error::InvalidTransaction`. -/
def Error.from_check (e : CheckError) : Error :=
  Error.InvalidTransaction e

/-- `From<ValidityError> for Error`: wraps the validity error as
`Error::InvalidTransaction(CheckError::Validity(e))`. -/
def Error.from_validity (e : ValidityError) : Error :=
  Error.InvalidTransaction (CheckError.Validity e)

/-- `From<CheckError> for TransactionValidityError`: wraps the check error
in `TransactionValidityError::Validation`. -/
def TransactionValidityError.from_check (e : CheckError) :
    TransactionValidityError :=
  TransactionValidityError.Validation e

/-- `From<ValidityError> for TransactionValidityError`: wraps the validity
error as `TransactionValidityError::Validation(CheckError::Validity(e))`. -/
def TransactionValidityError.from_validity (e : ValidityError) :
    TransactionValidityError :=
  TransactionValidityError.Validation (CheckError.Validity e)

/-- Display rendering of `TransactionValidityError`, from the `thiserror`
format strings (`#[error("...")]`) on each variant. -/
def TransactionValidityError.display : TransactionValidityError → String
  | TransactionValidityError.CoinAlreadySpent _ =>
      "Coin input was already spent"
  | TransactionValidityError.CoinHasNotMatured _ =>
      "Coin has not yet reached maturity"
  | TransactionValidityError.CoinDoesNotExist _ =>
      "The specified coin doesn" ++ apos ++ "t exist"
  | TransactionValidityError.MessageAlreadySpent _ =>
      "The specified message was already spent"
  | TransactionValidityError.MessageSpendTooEarly _ =>
      "Message is not yet spendable, as it" ++ apos
        ++ "s DA height is newer than this block allows"
  | TransactionValidityError.MessageDoesNotExist _ =>
      "The specified message doesn" ++ apos ++ "t exist"
  | TransactionValidityError.MessageSenderMismatch _ =>
      "The input message sender doesn" ++ apos
        ++ "t match the relayer message sender"
  | TransactionValidityError.MessageRecipientMismatch _ =>
      "The input message recipient doesn" ++ apos
        ++ "t match the relayer message recipient"
  | TransactionValidityError.MessageAmountMismatch _ =>
      "The input message amount doesn" ++ apos
        ++ "t match the relayer message amount"
  | TransactionValidityError.MessageNonceMismatch _ =>
      "The input message nonce doesn" ++ apos
        ++ "t match the relayer message nonce"
  | TransactionValidityError.MessageDataMismatch _ =>
      "The input message data doesn" ++ apos
        ++ "t match the relayer message data"
  | TransactionValidityError.InvalidContractInputIndex u =>
      "Contract output index isn" ++ apos ++ "t valid: " ++ hexStr u
  | TransactionValidityError.PredicateExecutionDisabled t =>
      "The transaction contains predicate inputs which aren" ++ apos
        ++ "t enabled: " ++ hexStr t
  | TransactionValidityError.InvalidPredicate t =>
      "The transaction contains a predicate which failed to validate: TransactionId("
        ++ hexStr t ++ ")"
  | TransactionValidityError.Validation e =>
      "Transaction validity: " ++ CheckError.debugStr e

/-- Display rendering of `Error`, from the `derive_more::Display` format
strings (`#[display(fmt = "...")]`) on each variant; the
`TransactionValidity` variant has no format string of its own and forwards
to the display of the wrapped `TransactionValidityError`. -/
def Error.display : Error → String
  | Error.TransactionIdCollision b =>
      "Transaction id was already used: " ++ hexStr b
  | Error.TooManyTransactions => "Too many transactions in the block"
  | Error.OutputAlreadyExists => "output already exists"
  | Error.FeeOverflow => "The computed fee caused an integer overflow"
  | Error.MintMissing => "The block is missing `Mint` transaction."
  | Error.MintFoundSecondEntry =>
      "Found the second entry of the `Mint` transaction in the block."
  | Error.MintHasUnexpectedIndex =>
      "The `Mint` transaction has an unexpected index."
  | Error.MintIsNotLastTransaction =>
      "The last transaction in the block is not `Mint`."
  | Error.MintMismatch => "The `Mint` transaction mismatches expectations."
  | Error.CoinbaseCannotIncreaseBalance m =>
      "Can" ++ apos ++ "t increase the balance of the coinbase contract: "
        ++ m ++ "."
  | Error.CoinbaseAmountMismatch =>
      "Coinbase amount mismatches with expected."
  | Error.TransactionValidity v => TransactionValidityError.display v
  | Error.StorageError m => "got error during work with storage " ++ m
  | Error.RelayerError m => "got error during work with relayer " ++ m
  | Error.VmExecution err txid =>
      "Transaction(" ++ hexStr txid ++ ") execution error: " ++ err
  | Error.InvalidTransaction e => CheckError.debugStr e
  | Error.Backtrace _ => "Execution error with backtrace"
  | Error.InvalidTransactionOutcome txid =>
      "Transaction doesn" ++ apos ++ "t match expected result: "
        ++ hexStr txid
  | Error.InvalidFeeAmount => "The amount of charged fees is invalid"
  | Error.InvalidBlockId => "Block id is invalid"
  | Error.ContractUtxoMissing c =>
      "No matching utxo for contract id $" ++ hexStr c
  | Error.MessageAlreadySpent n => "message already spent " ++ hexStr n
  | Error.InputTypeMismatch s => "Expected input of type " ++ s

/-- `sub` occurs as a contiguous substring of `s`. -/
def strContains (s sub : String) : Prop :=
  sub.data <:+: s.data

instance (s sub : String) : Decidable (strContains s sub) :=
  inferInstanceAs (Decidable (sub.data <:+: s.data))

/-- A string occurs in any string of which it is the middle of three
appended parts. -/
theorem strContains_append_mid (a m c : String) :
    strContains (a ++ m ++ c) m := by
  unfold strContains
  rw [String.data_append, String.data_append]
  exact List.infix_append a.data m.data c.data

/-- A string occurs in any string of which it is the appended suffix. -/
theorem strContains_append_right (a m : String) :
    strContains (a ++ m) m := by
  unfold strContains
  rw [String.data_append]
  exact (List.suffix_append a.data m.data).isInfix

/-- Modelled from the spec: the outcome of one transaction attempt as
reported by the execution engine ("a sequence of transaction attempts, each
yielding either a VM program state plus success/failure classification, or
a rejection reason before inclusion"). The executor loop itself lives in
the `fuel-core-executor` crate, which is not under the sources provided. -/
inductive TransactionAttemptOutcome where
  | Accepted : TransactionExecutionResult → TransactionAttemptOutcome
  | Rejected : Error → TransactionAttemptOutcome

/-- Modelled from the spec: the outcome aggregation of the executor ("Accepted
transactions, in their final relative order, populate `block` and get one
`Success`/`Failed` entry in `tx_status`, in the same order. Rejected
transactions are appended to `skipped_transactions` in the order rejection
was discovered; they must be omitted entirely from `block` and
`tx_status`."). The executor loop lives in the `fuel-core-executor` crate,
which is not under the sources provided. -/
def produceExecutionResult (bid : BlockId)
    (attempts : List (Transaction × TransactionAttemptOutcome)) :
    ExecutionResult :=
  let accepted := attempts.filterMap fun a =>
    match a.2 with
    | TransactionAttemptOutcome.Accepted r => some (a.1, r)
    | TransactionAttemptOutcome.Rejected _ => none
  let rejected := attempts.filterMap fun a =>
    match a.2 with
    | TransactionAttemptOutcome.Accepted _ => none
    | TransactionAttemptOutcome.Rejected e => some (a.1.id, e)
  { block := { blockId := bid, transactions := accepted.map Prod.fst }
    skipped_transactions := rejected
    tx_status := accepted.map fun p =>
      { id := p.1.id, result := p.2 } }

/-- The ids of the transactions the modelled executor accepted, in order. -/
def acceptedIds (attempts : List (Transaction × TransactionAttemptOutcome)) :
    List TxId :=
  attempts.filterMap fun a =>
    match a.2 with
    | TransactionAttemptOutcome.Accepted _ => some a.1.id
    | TransactionAttemptOutcome.Rejected _ => none

/-- The ids of the transactions the modelled executor rejected, in order. -/
def rejectedIds (attempts : List (Transaction × TransactionAttemptOutcome)) :
    List TxId :=
  attempts.filterMap fun a =>
    match a.2 with
    | TransactionAttemptOutcome.Accepted _ => none
    | TransactionAttemptOutcome.Rejected _ => some a.1.id

theorem acceptedIds_subset (attempts : List (Transaction × TransactionAttemptOutcome))
    (x : TxId) (hx : x ∈ acceptedIds attempts) :
    x ∈ attempts.map fun a => a.1.id := by
  unfold acceptedIds at hx
  rcases List.mem_filterMap.mp hx with ⟨a, ha, hax⟩
  cases h : a.2 with
  | Accepted r =>
      rw [h] at hax
      cases hax
      exact List.mem_map.mpr ⟨a, ha, rfl⟩
  | Rejected e =>
      rw [h] at hax
      cases hax

theorem rejectedIds_subset (attempts : List (Transaction × TransactionAttemptOutcome))
    (x : TxId) (hx : x ∈ rejectedIds attempts) :
    x ∈ attempts.map fun a => a.1.id := by
  unfold rejectedIds at hx
  rcases List.mem_filterMap.mp hx with ⟨a, ha, hax⟩
  cases h : a.2 with
  | Accepted r =>
      rw [h] at hax
      cases hax
  | Rejected e =>
      rw [h] at hax
      cases hax
      exact List.mem_map.mpr ⟨a, ha, rfl⟩

theorem accepted_rejected_disjoint
    (attempts : List (Transaction × TransactionAttemptOutcome))
    (hnodup : (attempts.map fun a => a.1.id).Nodup) (x : TxId)
    (hacc : x ∈ acceptedIds attempts) : x ∉ rejectedIds attempts := by
  induction attempts with
  | nil => cases hacc
  | cons a rest ih =>
      rw [List.map_cons, List.nodup_cons] at hnodup
      cases h : a.2 with
      | Accepted r =>
          rw [acceptedIds, List.filterMap_cons, h] at hacc
          rw [rejectedIds, List.filterMap_cons, h]
          rcases List.mem_cons.mp hacc with heq | hmem
          · intro hmem
            exact hnodup.1 (heq ▸ rejectedIds_subset rest x hmem)
          · exact ih hnodup.2 hmem
      | Rejected e =>
          rw [acceptedIds, List.filterMap_cons, h] at hacc
          rw [rejectedIds, List.filterMap_cons, h]
          intro hmem
          rcases List.mem_cons.mp hmem with heq | hmem
          · exact hnodup.1 (heq ▸ acceptedIds_subset rest x hacc)
          · exact ih hnodup.2 hacc hmem

/-- Recognizer for the `Error::TransactionValidity` wrapping variant. -/
def Error.isTransactionValidityVariant : Error → Bool
  | Error.TransactionValidity _ => true
  | _ => false

/-- Recognizer for `Error` values expressing the message-already-spent
input-validity cause: either the inline variant
`Error::MessageAlreadySpent` or the wrapped
`Error::TransactionValidity(TransactionValidityError::MessageAlreadySpent)`. -/
def Error.denotesMessageAlreadySpent : Error → Bool
  | Error.MessageAlreadySpent _ => true
  | Error.TransactionValidity
      (TransactionValidityError.MessageAlreadySpent _) => true
  | _ => false

/-- C2: For every `TransactionValidityError` value `v`, `Error::from(v)` is
the `Error::TransactionValidity` variant wrapping `v`, and the display text
of `Error::from(v)` equals the display text of `v` itself. -/
theorem error_from_validity_wraps_and_preserves_display
    (v : TransactionValidityError) :
    Error.from_transaction_validity v = Error.TransactionValidity v
    ∧ Error.display (Error.from_transaction_validity v)
        = TransactionValidityError.display v :=
  ⟨rfl, rfl⟩

/-- C3: For every `ExecutionKind` value `k` and every value `x`, wrapping
`x` with `k` and then splitting is the identity:
`k.wrap(x).split() == (k, x)`. -/
theorem wrap_split_identity {T : Type} (k : ExecutionKind) (x : T) :
    ExecutionType.split (ExecutionKind.wrap k x) = (k, x) := by
  cases k <;> rfl

/-- C4: For every `ExecutionTypes` value `m` and functions `f`/`g`,
`map_p f` and `map_v g` leave the tag (`to_kind`) unchanged; `map_p`
applies `f` to the payload exactly when the tag is `DryRun` or `Production`
and passes a `Validation` payload through unchanged, and `map_v` applies
`g` exactly when the tag is `Validation` and passes `DryRun`/`Production`
payloads through unchanged. -/
theorem map_p_map_v_preserve_kind_and_target_payload
    {P V Q W : Type} (m : ExecutionTypes P V) (f : P → Q) (g : V → W) :
    (ExecutionTypes.to_kind (ExecutionTypes.map_p m f)
        = ExecutionTypes.to_kind m
      ∧ ExecutionTypes.to_kind (ExecutionTypes.map_v m g)
        = ExecutionTypes.to_kind m)
    ∧ (match m with
       | ExecutionTypes.DryRun p =>
           ExecutionTypes.map_p m f = ExecutionTypes.DryRun (f p)
           ∧ ExecutionTypes.map_v m g = ExecutionTypes.DryRun p
       | ExecutionTypes.Production p =>
           ExecutionTypes.map_p m f = ExecutionTypes.Production (f p)
           ∧ ExecutionTypes.map_v m g = ExecutionTypes.Production p
       | ExecutionTypes.Validation v =>
           ExecutionTypes.map_p m f = ExecutionTypes.Validation v
           ∧ ExecutionTypes.map_v m g = ExecutionTypes.Validation (g v)) := by
  cases m <;> exact ⟨⟨rfl, rfl⟩, rfl, rfl⟩

/-- C5: For every single-type wrapper `m` and every function `f`,
`m.map(f).into_inner()` equals `f(m.into_inner())`. -/
theorem map_into_inner_commutes {T U : Type} (m : ExecutionType T)
    (f : T → U) :
    ExecutionType.into_inner (ExecutionType.map m f)
      = f (ExecutionType.into_inner m) := by
  cases m <;> rfl

/-- C6: Converting a `ValidityError` into `Error` yields
`Error::InvalidTransaction(CheckError::Validity(e))`, the same result as
first converting into `CheckError` and then into `Error`; converting it
into `TransactionValidityError` yields
`TransactionValidityError::Validation(CheckError::Validity(e))`, again
agreeing with the two-step path; and a `CheckError` converts directly into
`Error::InvalidTransaction` and `TransactionValidityError::Validation`, so
both entry points produce a correctly-shaped error with no
double-wrapping. -/
theorem validity_check_error_conversions_agree (e : ValidityError)
    (c : CheckError) :
    Error.from_validity e
        = Error.InvalidTransaction (CheckError.Validity e)
    ∧ Error.from_validity e = Error.from_check (CheckError.from_validity e)
    ∧ TransactionValidityError.from_validity e
        = TransactionValidityError.Validation (CheckError.Validity e)
    ∧ TransactionValidityError.from_validity e
        = TransactionValidityError.from_check (CheckError.from_validity e)
    ∧ Error.from_check c = Error.InvalidTransaction c
    ∧ TransactionValidityError.from_check c
        = TransactionValidityError.Validation c :=
  ⟨rfl, rfl, rfl, rfl, rfl, rfl⟩

/-- C9: For every single-type wrapper `m` and function `f` returning an
optional value, `m.filter_map(f)` returns `none` exactly when `f` applied
to the payload of `m` returns `none`, and otherwise returns `some` of a wrapper
with the same tag as `m` holding the value produced by `f`. -/
theorem filter_map_none_iff_and_preserves_tag {T U : Type}
    (m : ExecutionType T) (f : T → Option U) :
    ExecutionType.filter_map m f
        = (f (ExecutionType.into_inner m)).map
            (fun u => ExecutionKind.wrap (ExecutionTypes.to_kind m) u)
    ∧ (ExecutionType.filter_map m f = none
        ↔ f (ExecutionType.into_inner m) = none) := by
  cases m <;> rename_i t <;> cases h : f t <;>
    simp [ExecutionType.filter_map, ExecutionType.into_inner,
      ExecutionTypes.to_kind, ExecutionKind.wrap, h]

/-- C10: For every two-type wrapper whose `Validation` payload is a full
`Block`, the `id()` accessor returns `none` when the tag is `DryRun` or
`Production`, and `some` of the id of the wrapped block when the tag is
`Validation`. -/
theorem execution_types_id_none_unless_validation {P : Type} (p q : P)
    (b : Block) :
    ExecutionTypes.id (ExecutionTypes.DryRun p : ExecutionTypes P Block)
        = none
    ∧ ExecutionTypes.id
        (ExecutionTypes.Production q : ExecutionTypes P Block) = none
    ∧ ExecutionTypes.id
        (ExecutionTypes.Validation b : ExecutionTypes P Block)
        = some (Block.id b) :=
  ⟨rfl, rfl, rfl⟩

theorem produce_tx_status_ids_eq_acceptedIds (bid : BlockId)
    (attempts : List (Transaction × TransactionAttemptOutcome)) :
    (produceExecutionResult bid attempts).tx_status.map
        TransactionExecutionStatus.id = acceptedIds attempts := by
  unfold produceExecutionResult acceptedIds
  simp only [List.map_filterMap]
  congr 1
  funext a
  rcases a with ⟨t, o⟩
  cases o <;> rfl

theorem produce_block_ids_eq_acceptedIds (bid : BlockId)
    (attempts : List (Transaction × TransactionAttemptOutcome)) :
    (produceExecutionResult bid attempts).block.transactions.map
        Transaction.id = acceptedIds attempts := by
  unfold produceExecutionResult acceptedIds
  simp only [List.map_filterMap]
  congr 1
  funext a
  rcases a with ⟨t, o⟩
  cases o <;> rfl

theorem produce_skipped_ids_eq_rejectedIds (bid : BlockId)
    (attempts : List (Transaction × TransactionAttemptOutcome)) :
    (produceExecutionResult bid attempts).skipped_transactions.map
        Prod.fst = rejectedIds attempts := by
  unfold produceExecutionResult rejectedIds
  simp only [List.map_filterMap]
  congr 1
  funext a
  rcases a with ⟨t, o⟩
  cases o <;> rfl

/-- C1: For every execution result built by the (spec-modelled) executor
outcome aggregation from a sequence of transaction attempts with
pairwise-distinct transaction ids, the list of transaction ids in
`tx_status` equals exactly the list of ids of the transactions in `block`
(one `tx_status` entry per included transaction, in block order), and none
of those ids occurs among the ids of `skipped_transactions`. -/
theorem execution_result_tx_ids_match_block_and_disjoint_from_skipped
    (bid : BlockId)
    (attempts : List (Transaction × TransactionAttemptOutcome))
    (hnodup : (attempts.map fun a => a.1.id).Nodup) :
    ((produceExecutionResult bid attempts).tx_status.map
        TransactionExecutionStatus.id
      = (produceExecutionResult bid attempts).block.transactions.map
          Transaction.id)
    ∧ ∀ x, x ∈ (produceExecutionResult bid attempts).tx_status.map
          TransactionExecutionStatus.id →
        x ∉ (produceExecutionResult bid attempts).skipped_transactions.map
          Prod.fst := by
  constructor
  · rw [produce_tx_status_ids_eq_acceptedIds,
      produce_block_ids_eq_acceptedIds]
  · intro x hx
    rw [produce_tx_status_ids_eq_acceptedIds] at hx
    rw [produce_skipped_ids_eq_rejectedIds]
    exact accepted_rejected_disjoint attempts hnodup x hx

/-- Witness for C1 at a concrete input: two accepted transactions and one
rejected transaction, with pairwise-distinct ids. -/
theorem execution_result_tx_ids_invariant_witness :
    (([(Transaction.mk 10 0,
          TransactionAttemptOutcome.Accepted
            (TransactionExecutionResult.Success none)),
        (Transaction.mk 11 0,
          TransactionAttemptOutcome.Rejected Error.TooManyTransactions),
        (Transaction.mk 12 1,
          TransactionAttemptOutcome.Accepted
            (TransactionExecutionResult.Failed none "reverted"))].map
        fun a => a.1.id).Nodup)
    ∧ (((produceExecutionResult 5
          [(Transaction.mk 10 0,
              TransactionAttemptOutcome.Accepted
                (TransactionExecutionResult.Success none)),
            (Transaction.mk 11 0,
              TransactionAttemptOutcome.Rejected Error.TooManyTransactions),
            (Transaction.mk 12 1,
              TransactionAttemptOutcome.Accepted
                (TransactionExecutionResult.Failed none "reverted"))]).tx_status.map
          TransactionExecutionStatus.id
        = (produceExecutionResult 5
            [(Transaction.mk 10 0,
                TransactionAttemptOutcome.Accepted
                  (TransactionExecutionResult.Success none)),
              (Transaction.mk 11 0,
                TransactionAttemptOutcome.Rejected Error.TooManyTransactions),
              (Transaction.mk 12 1,
                TransactionAttemptOutcome.Accepted
                  (TransactionExecutionResult.Failed none "reverted"))]).block.transactions.map
            Transaction.id)
      ∧ ∀ x, x ∈ (produceExecutionResult 5
            [(Transaction.mk 10 0,
                TransactionAttemptOutcome.Accepted
                  (TransactionExecutionResult.Success none)),
              (Transaction.mk 11 0,
                TransactionAttemptOutcome.Rejected Error.TooManyTransactions),
              (Transaction.mk 12 1,
                TransactionAttemptOutcome.Accepted
                  (TransactionExecutionResult.Failed none "reverted"))]).tx_status.map
            TransactionExecutionStatus.id →
          x ∉ (produceExecutionResult 5
            [(Transaction.mk 10 0,
                TransactionAttemptOutcome.Accepted
                  (TransactionExecutionResult.Success none)),
              (Transaction.mk 11 0,
                TransactionAttemptOutcome.Rejected Error.TooManyTransactions),
              (Transaction.mk 12 1,
                TransactionAttemptOutcome.Accepted
                  (TransactionExecutionResult.Failed none "reverted"))]).skipped_transactions.map
            Prod.fst) :=
  ⟨by decide,
    execution_result_tx_ids_match_block_and_disjoint_from_skipped 5
      [(Transaction.mk 10 0,
          TransactionAttemptOutcome.Accepted
            (TransactionExecutionResult.Success none)),
        (Transaction.mk 11 0,
          TransactionAttemptOutcome.Rejected Error.TooManyTransactions),
        (Transaction.mk 12 1,
          TransactionAttemptOutcome.Accepted
            (TransactionExecutionResult.Failed none "reverted"))]
      (by decide)⟩

/-- A substring of a string also occurs in that string extended on the
right. -/
theorem strContains_extend_right (s d m : String) (h : strContains s m) :
    strContains (s ++ d) m := by
  unfold strContains at h ⊢
  rw [String.data_append]
  exact h.trans (List.prefix_append s.data d.data).isInfix

/-- C7 counterexample: the message-already-spent input-validity cause is
expressible by the inline variant `Error::MessageAlreadySpent`, which is
not the `Error::TransactionValidity` wrapping variant, so the cause is
duplicated inline in `Error`. -/
theorem message_already_spent_duplicated_inline_counterexample :
    Error.denotesMessageAlreadySpent (Error.MessageAlreadySpent 7) = true
    ∧ Error.isTransactionValidityVariant (Error.MessageAlreadySpent 7)
        = false
    ∧ Error.MessageAlreadySpent 7
        ≠ Error.from_transaction_validity
            (TransactionValidityError.MessageAlreadySpent 7) := by
  refine ⟨rfl, rfl, ?_⟩
  decide

/-- C7 amended: every `TransactionValidityError` cause is reachable from
`Error` through the wrapping variant `Error::TransactionValidity`, but the
message-already-spent cause is additionally duplicated as the inline
variant `Error::MessageAlreadySpent`, which is not the wrapping variant. -/
theorem validity_causes_wrapped_but_message_spent_duplicated :
    (∀ v : TransactionValidityError,
      Error.isTransactionValidityVariant (Error.TransactionValidity v)
        = true)
    ∧ ∀ n : Nonce,
        Error.denotesMessageAlreadySpent
            (Error.TransactionValidity
              (TransactionValidityError.MessageAlreadySpent n)) = true
        ∧ Error.denotesMessageAlreadySpent (Error.MessageAlreadySpent n)
            = true
        ∧ Error.isTransactionValidityVariant (Error.MessageAlreadySpent n)
            = false :=
  ⟨fun _ => rfl, fun _ => ⟨rfl, rfl, rfl⟩⟩

/-- C8 counterexample: the display rendering of
`TransactionValidityError::CoinAlreadySpent` at UTXO id 3 is the fixed text
with no occurrence of the hex-prefixed identifier. -/
theorem coin_already_spent_display_omits_identifier :
    ¬ strContains
        (TransactionValidityError.display
          (TransactionValidityError.CoinAlreadySpent 3))
        (hexStr 3) := by
  decide

/-- C8 amended: every `Error` variant embedding an identifier (transaction
id, UTXO id, nonce, or contract id) renders it in the hex-prefixed format;
among `TransactionValidityError` variants only
`InvalidContractInputIndex`, `PredicateExecutionDisabled` and
`InvalidPredicate` render their identifier (hex-prefixed), while the
remaining identifier-carrying validity variants render a fixed message
that omits the identifier. -/
theorem identifier_variants_hex_display (b : Bytes32) (n : Nonce)
    (c : ContractId) (u : UtxoId) (t : TxId) (ie : InterpreterError) :
    strContains (Error.display (Error.TransactionIdCollision b)) (hexStr b)
    ∧ strContains (Error.display (Error.VmExecution ie b)) (hexStr b)
    ∧ strContains (Error.display (Error.InvalidTransactionOutcome b))
        (hexStr b)
    ∧ strContains (Error.display (Error.ContractUtxoMissing c)) (hexStr c)
    ∧ strContains (Error.display (Error.MessageAlreadySpent n)) (hexStr n)
    ∧ strContains
        (TransactionValidityError.display
          (TransactionValidityError.InvalidContractInputIndex u))
        (hexStr u)
    ∧ strContains
        (TransactionValidityError.display
          (TransactionValidityError.PredicateExecutionDisabled t))
        (hexStr t)
    ∧ strContains
        (TransactionValidityError.display
          (TransactionValidityError.InvalidPredicate t)) (hexStr t)
    ∧ TransactionValidityError.display
        (TransactionValidityError.CoinAlreadySpent u)
        = "Coin input was already spent"
    ∧ TransactionValidityError.display
        (TransactionValidityError.CoinHasNotMatured u)
        = "Coin has not yet reached maturity"
    ∧ TransactionValidityError.display
        (TransactionValidityError.CoinDoesNotExist u)
        = "The specified coin doesn" ++ apos ++ "t exist"
    ∧ TransactionValidityError.display
        (TransactionValidityError.MessageAlreadySpent n)
        = "The specified message was already spent"
    ∧ TransactionValidityError.display
        (TransactionValidityError.MessageSpendTooEarly n)
        = "Message is not yet spendable, as it" ++ apos
            ++ "s DA height is newer than this block allows"
    ∧ TransactionValidityError.display
        (TransactionValidityError.MessageDoesNotExist n)
        = "The specified message doesn" ++ apos ++ "t exist"
    ∧ TransactionValidityError.display
        (TransactionValidityError.MessageSenderMismatch n)
        = "The input message sender doesn" ++ apos
            ++ "t match the relayer message sender"
    ∧ TransactionValidityError.display
        (TransactionValidityError.MessageRecipientMismatch n)
        = "The input message recipient doesn" ++ apos
            ++ "t match the relayer message recipient"
    ∧ TransactionValidityError.display
        (TransactionValidityError.MessageAmountMismatch n)
        = "The input message amount doesn" ++ apos
            ++ "t match the relayer message amount"
    ∧ TransactionValidityError.display
        (TransactionValidityError.MessageNonceMismatch n)
        = "The input message nonce doesn" ++ apos
            ++ "t match the relayer message nonce"
    ∧ TransactionValidityError.display
        (TransactionValidityError.MessageDataMismatch n)
        = "The input message data doesn" ++ apos
            ++ "t match the relayer message data" := by
  refine ⟨?_, ?_, ?_, ?_, ?_, ?_, ?_, ?_, rfl, rfl, rfl, rfl, rfl, rfl,
    rfl, rfl, rfl, rfl, rfl⟩
  · exact strContains_append_right _ _
  · exact strContains_extend_right _ _ _
      (strContains_extend_right _ _ _
        (strContains_append_right "Transaction(" (hexStr b)))
  · exact strContains_append_right _ _
  · exact strContains_append_right _ _
  · exact strContains_append_right _ _
  · exact strContains_append_right _ _
  · exact strContains_append_right _ _
  · exact strContains_append_mid _ _ _
